import Mathlib

/-!
Verification development for the AI-Insight-Craft repository: a shallow
embedding of the query-execution server (server/analyst.py), the CSV
analysis agent session machinery (csv_agent/csv_agent.py,
dashboardagent.py), and the spec-mandated validator, result shaper and
pre-check state machine, together with theorems settling the frozen
claims about them.
-/

namespace InsightCraft

/-- Scalar cell values of a tabular file (string, number, boolean, null),
matching the Result Record value domain of the data model. -/
inductive Value where
  | str (s : String)
  | int (n : Int)
  | bool (b : Bool)
  | null
deriving DecidableEq, Repr

/-- A Result Record: an ordered mapping from output column name to a
scalar value, as produced by `execute_polars_sql` via `to_dicts`. -/
abbrev Record := List (String × Value)

/-- Shallow embedding of a polars DataFrame: ordered column names, their
dtype names, and the rows (each row a list of scalar values aligned with
the columns). -/
structure DataFrame where
  cols : List String
  dtypes : List String
  rows : List (List Value)
deriving DecidableEq, Repr

/-- The file system as seen by the server: a mapping from file path to
the parsed tabular contents of that file. -/
abbrev FileStore := List (String × DataFrame)

/-- Errors surfaced by the embedded server functions: unsupported file
type (the `ValueError` raised by `read_file` and `read_file_list`),
unreadable path, schema mismatch during concatenation, and runtime
execution errors from the SQL engine. -/
inductive AnalystError where
  | unsupportedFileType (ft : String)
  | fileReadError (path : String)
  | schemaMismatch (c1 c2 : List String)
  | executionError (detail : String)
deriving DecidableEq, Repr

/-- Instrumentation carried alongside each server read: which file paths
were opened, and how many materialization passes were performed. -/
structure IOLog where
  reads : List String
  materializations : Nat
deriving DecidableEq, Repr

/-- `pl.read_csv` / `pl.read_parquet` on a single path: look the file up
in the store; a missing path raises a read error. -/
def readTable (store : FileStore) (path : String) : Except AnalystError DataFrame :=
  match store.lookup path with
  | some df => .ok df
  | none => .error (.fileReadError path)

/-- `read_file(file_location, file_type)` from server/analyst.py: reads a
single file eagerly, raising `Unsupported file type` for any type other
than csv or parquet before touching the file. -/
def read_file (store : FileStore) (loc : String) (ft : String) :
    Except AnalystError DataFrame × IOLog :=
  if ft = "csv" then (readTable store loc, ⟨[loc], 1⟩)
  else if ft = "parquet" then (readTable store loc, ⟨[loc], 1⟩)
  else (.error (.unsupportedFileType ft), ⟨[], 0⟩)

/-- A lazy frame produced by `pl.scan_csv`: records the path, reads
nothing yet. -/
structure LazyFrame where
  path : String
deriving DecidableEq, Repr

/-- `pl.scan_csv(f)`: build a lazy scan plan for one file. -/
def scan_csv (path : String) : LazyFrame := ⟨path⟩

/-- The lazy plan built by `pl.concat(dfs)` over lazy scans: the per-file
plans, concatenated but not yet materialized. -/
structure LazyConcat where
  frames : List LazyFrame
deriving DecidableEq, Repr

/-- `pl.concat` over a list of lazy frames. -/
def pl_concat (fs : List LazyFrame) : LazyConcat := ⟨fs⟩

/-- Effectful map over a list in the `Except` monad: stops at the first
error, mirroring how polars aborts the whole plan on the first failure. -/
def mapE (f : α → Except AnalystError β) : List α → Except AnalystError (List β)
  | [] => .ok []
  | a :: as =>
    match f a with
    | .error e => .error e
    | .ok b =>
      match mapE f as with
      | .error e => .error e
      | .ok bs => .ok (b :: bs)

/-- Vertical concatenation of two frames, polars `vertical` semantics:
succeeds only when column names and dtypes agree exactly (no coercion,
no column dropping), appending the rows; otherwise raises a schema
mismatch. -/
def vconcat2 (a b : DataFrame) : Except AnalystError DataFrame :=
  if a.cols = b.cols ∧ a.dtypes = b.dtypes then
    .ok ⟨a.cols, a.dtypes, a.rows ++ b.rows⟩
  else
    .error (.schemaMismatch a.cols b.cols)

/-- Vertical concatenation of a list of frames, left to right; polars
raises on an empty concat. -/
def vconcat : List DataFrame → Except AnalystError DataFrame
  | [] => .error (.executionError "cannot concat empty list")
  | [d] => .ok d
  | d :: d2 :: ds =>
    match vconcat (d2 :: ds) with
    | .error e => .error e
    | .ok rest => vconcat2 d rest

/-- `.collect()` on the concatenated lazy plan: the single combined
materialization pass, which is when the per-file reads actually happen. -/
def LazyConcat.collect (store : FileStore) (c : LazyConcat) :
    Except AnalystError DataFrame :=
  match mapE (fun lf => readTable store lf.path) c.frames with
  | .error e => .error e
  | .ok dfs => vconcat dfs

/-- `pl.read_parquet` on a list of paths: one combined eager read. -/
def readParquetMulti (store : FileStore) (locs : List String) :
    Except AnalystError DataFrame :=
  match mapE (readTable store) locs with
  | .error e => .error e
  | .ok dfs => vconcat dfs

/-- `read_file_list(file_locations, file_type)` from server/analyst.py:
for csv builds a lazy scan per file, concatenates the plans, and
collects once; for parquet reads the whole list in one call; any other
type raises `Unsupported file type` before any file is touched. -/
def read_file_list (store : FileStore) (locs : List String) (ft : String) :
    Except AnalystError DataFrame × IOLog :=
  if ft = "csv" then ((pl_concat (locs.map scan_csv)).collect store, ⟨locs, 1⟩)
  else if ft = "parquet" then (readParquetMulti store locs, ⟨locs, 1⟩)
  else (.error (.unsupportedFileType ft), ⟨[], 0⟩)

/-- One (column name, dtype) pair of a Schema. -/
structure SchemaCol where
  name : String
  dtype : String
deriving DecidableEq, Repr

/-- A Schema: the ordered sequence of (column name, dtype) pairs of one
file. -/
abbrev Schema := List SchemaCol

/-- `get_schema(file_location, file_type)` from server/analyst.py: reads
the file through `read_file` and returns its (name, dtype) pairs in
column order. -/
def get_schema (store : FileStore) (loc : String) (ft : String) :
    Except AnalystError Schema × IOLog :=
  match read_file store loc ft with
  | (.error e, log) => (.error e, log)
  | (.ok df, log) =>
    (.ok ((df.cols.zip df.dtypes).map fun p => ⟨p.fst, p.snd⟩), log)

/-! ## The restricted SQL dialect

Queries are represented by their abstract syntax. The dialect (data
model section 3 of the spec, and the prompt rules in
CSVAnalysisConfig.INSTRUCTIONS): single base relation `self`,
composition only through a WITH chain of CTEs, expressions over
columns, literals, function calls and binary operators, with nested
SELECTs representable in projection, WHERE, HAVING and FROM positions
so that the validator has something to reject. -/

mutual

/-- An SQL scalar expression of the dialect, including an illegal nested
SELECT used as an expression. -/
inductive SqlExpr : Type where
  | col (name : String)
  | litI (n : Int)
  | litS (s : String)
  | fnApp (fn : String) (args : List SqlExpr)
  | bin (op : String) (lhs rhs : SqlExpr)
  | sub (inner : SelectCore)

/-- A FROM source: a bare table identifier, an illegal derived-table
subquery (with an optional alias), or an illegal join of two sources. -/
inductive FromSrc : Type where
  | table (name : String)
  | derived (inner : SelectCore) (al : Option String)
  | join (lhs rhs : FromSrc)

/-- One SELECT core: projection items (expression plus optional alias),
a FROM source, optional WHERE, a GROUP BY column list, and optional
HAVING. -/
inductive SelectCore : Type where
  | mk (proj : List (SqlExpr × Option String)) (src : FromSrc)
      (whereC : Option SqlExpr) (groupBy : List String)
      (havingC : Option SqlExpr)

end

/-- A full query: a WITH chain of named CTEs followed by the body
SELECT. -/
structure SqlQuery where
  ctes : List (String × SelectCore)
  body : SelectCore

/-- Projection items of a core. -/
def SelectCore.proj : SelectCore → List (SqlExpr × Option String)
  | .mk p _ _ _ _ => p

/-- FROM source of a core. -/
def SelectCore.src : SelectCore → FromSrc
  | .mk _ s _ _ _ => s

/-- WHERE clause of a core. -/
def SelectCore.whereC : SelectCore → Option SqlExpr
  | .mk _ _ w _ _ => w

/-- GROUP BY columns of a core. -/
def SelectCore.groupBy : SelectCore → List String
  | .mk _ _ _ g _ => g

/-- HAVING clause of a core. -/
def SelectCore.havingC : SelectCore → Option SqlExpr
  | .mk _ _ _ _ h => h

mutual

/-- Does an expression contain a nested SELECT anywhere inside it? -/
def exprHasSub : SqlExpr → Bool
  | .col _ => false
  | .litI _ => false
  | .litS _ => false
  | .fnApp _ args => exprsHaveSub args
  | .bin _ a b => exprHasSub a || exprHasSub b
  | .sub _ => true

/-- Does any expression of the list contain a nested SELECT? -/
def exprsHaveSub : List SqlExpr → Bool
  | [] => false
  | e :: es => exprHasSub e || exprsHaveSub es

/-- Does a FROM source contain a nested SELECT (a derived-table
subquery, directly or under a join)? -/
def fromHasSub : FromSrc → Bool
  | .table _ => false
  | .derived _ _ => true
  | .join a b => fromHasSub a || fromHasSub b

/-- Does a SELECT core contain a nested SELECT inside its projection
list, WHERE clause, HAVING clause, or as a FROM source? -/
def coreHasSub : SelectCore → Bool
  | .mk proj src whereC _ havingC =>
    projHasSub proj || fromHasSub src || optHasSub whereC || optHasSub havingC

/-- Does any projection item contain a nested SELECT? -/
def projHasSub : List (SqlExpr × Option String) → Bool
  | [] => false
  | (e, _) :: ps => exprHasSub e || projHasSub ps

/-- Does an optional clause contain a nested SELECT? -/
def optHasSub : Option SqlExpr → Bool
  | none => false
  | some e => exprHasSub e

end

mutual

/-- All bare base-relation identifiers referenced by an expression
(through nested SELECTs as well). -/
def exprTables : SqlExpr → List String
  | .col _ => []
  | .litI _ => []
  | .litS _ => []
  | .fnApp _ args => exprsTables args
  | .bin _ a b => exprTables a ++ exprTables b
  | .sub q => coreTables q

/-- All bare base-relation identifiers of a list of expressions. -/
def exprsTables : List SqlExpr → List String
  | [] => []
  | e :: es => exprTables e ++ exprsTables es

/-- All bare base-relation identifiers of a FROM source. -/
def fromTables : FromSrc → List String
  | .table n => [n]
  | .derived q _ => coreTables q
  | .join a b => fromTables a ++ fromTables b

/-- All bare base-relation identifiers referenced by a SELECT core. -/
def coreTables : SelectCore → List String
  | .mk proj src whereC _ havingC =>
    projTables proj ++ fromTables src ++ optTables whereC ++ optTables havingC

/-- All bare base-relation identifiers of the projection items. -/
def projTables : List (SqlExpr × Option String) → List String
  | [] => []
  | (e, _) :: ps => exprTables e ++ projTables ps

/-- All bare base-relation identifiers of an optional clause. -/
def optTables : Option SqlExpr → List String
  | none => []
  | some e => exprTables e

end

mutual

/-- All bare column identifiers referenced by an expression. -/
def exprCols : SqlExpr → List String
  | .col n => [n]
  | .litI _ => []
  | .litS _ => []
  | .fnApp _ args => exprsCols args
  | .bin _ a b => exprCols a ++ exprCols b
  | .sub q => coreCols q

/-- All bare column identifiers of a list of expressions. -/
def exprsCols : List SqlExpr → List String
  | [] => []
  | e :: es => exprCols e ++ exprsCols es

/-- All bare column identifiers of a FROM source. -/
def fromCols : FromSrc → List String
  | .table _ => []
  | .derived q _ => coreCols q
  | .join a b => fromCols a ++ fromCols b

/-- All bare column identifiers referenced by a SELECT core. -/
def coreCols : SelectCore → List String
  | .mk proj src whereC groupBy havingC =>
    projCols proj ++ fromCols src ++ optCols whereC ++ groupBy ++ optCols havingC

/-- All bare column identifiers of the projection items. -/
def projCols : List (SqlExpr × Option String) → List String
  | [] => []
  | (e, _) :: ps => exprCols e ++ projCols ps

/-- All bare column identifiers of an optional clause. -/
def optCols : Option SqlExpr → List String
  | none => []
  | some e => exprCols e

end

/-- The cores of a query: every CTE body and the main body. -/
def SqlQuery.cores (q : SqlQuery) : List SelectCore :=
  q.ctes.map Prod.snd ++ [q.body]

/-- All bare base-relation identifiers of the whole query. -/
def queryTables (q : SqlQuery) : List String :=
  (q.cores.map coreTables).flatten

/-- Identifiers the query may legally use as base relations: the
reserved name `self` and the names introduced by the WITH chain. -/
def allowedTables (q : SqlQuery) : List String :=
  "self" :: q.ctes.map Prod.fst

/-- Does the query contain a nested SELECT inside a projection list,
WHERE clause, HAVING clause, or as a FROM source, in any of its
cores? -/
def queryHasSub (q : SqlQuery) : Bool :=
  q.cores.any coreHasSub

/-- Does a FROM source contain a join (explicit or of any shape)? -/
def fromHasJoin : FromSrc → Bool
  | .table _ => false
  | .derived _ _ => false
  | .join _ _ => true

/-- Does any core of the query use a join as its FROM source? -/
def queryHasJoin (q : SqlQuery) : Bool :=
  q.cores.any fun c => fromHasJoin c.src

/-- Is some derived table of a core missing its explicit alias? -/
def coreMissingAlias : SelectCore → Bool
  | .mk _ src _ _ _ =>
    match src with
    | .derived _ none => true
    | _ => false

/-- The aggregate function names of the dialect, from
polars_sql_aggregate_functions in server/analyst.py. -/
def polars_sql_aggregate_functions : List String :=
  ["avg", "count", "first", "last", "max", "median", "min", "sum",
   "quantile_count", "quantile_disc", "stddev", "sum", "variance"]

mutual

/-- Does an expression apply an aggregate function at its head or inside
its arguments and operands (nested SELECTs are not examined: they are
rejected earlier by the subquery rule)? -/
def exprHasAgg : SqlExpr → Bool
  | .col _ => false
  | .litI _ => false
  | .litS _ => false
  | .fnApp fn args =>
    polars_sql_aggregate_functions.contains fn || exprsHaveAgg args
  | .bin _ a b => exprHasAgg a || exprHasAgg b
  | .sub _ => false

/-- Does any expression of the list apply an aggregate function? -/
def exprsHaveAgg : List SqlExpr → Bool
  | [] => false
  | e :: es => exprHasAgg e || exprsHaveAgg es

end

/-- The bare columns a projection item exposes without aggregation:
a plain column reference. -/
def projBareCol : SqlExpr × Option String → List String
  | (.col n, _) => [n]
  | _ => []

/-- Grouping rule for one core: an aggregate in the projection alongside
a bare non-aggregated column requires that column to be listed in GROUP
BY. -/
def coreMissingGroupBy (c : SelectCore) : Bool :=
  (c.proj.any fun p => exprHasAgg p.fst) &&
    ((c.proj.map projBareCol).flatten.any fun n => !(c.groupBy.contains n))

/-- The computed output aliases declared anywhere in the query
(projection aliases of the body and of every CTE). -/
def queryAliases (q : SqlQuery) : List String :=
  (q.cores.map fun c => c.proj.filterMap Prod.snd).flatten

/-- All bare column identifiers of the whole query. -/
def queryCols (q : SqlQuery) : List String :=
  (q.cores.map coreCols).flatten

/-- Result of validating a query: Valid, or a Rejection carrying the
specific violated rule. -/
inductive ValidationResult where
  | valid
  | unknownTable (name : String)
  | illegalSubquery
  | illegalJoin
  | missingAlias
  | unknownColumn (name : String)
  | missingGroupBy
deriving DecidableEq, Repr

/-- Modelled from the spec: the Query Validator of section 4.3, which is
absent from the source (its rules exist only as prompt instructions in
CSVAnalysisConfig.INSTRUCTIONS and INSTRUCTIONS_CSV_ANALYSIS). Checks
the six rules in the order the spec fixes: table reference, no
subquery, no join, alias, column existence, grouping. The first
violated rule is reported. -/
def validate (q : SqlQuery) (schema : Schema) : ValidationResult :=
  match (queryTables q).find? (fun t => !(allowedTables q).contains t) with
  | some t => .unknownTable t
  | none =>
  if queryHasSub q then .illegalSubquery
  else if queryHasJoin q then .illegalJoin
  else if q.cores.any coreMissingAlias then .missingAlias
  else
    match (queryCols q).find? (fun c =>
        !((schema.map SchemaCol.name).contains c || (queryAliases q).contains c)) with
    | some c => .unknownColumn c
    | none =>
      if q.cores.any coreMissingGroupBy then .missingGroupBy
      else .valid

/-! ## Query execution: `df.sql(query)` and `execute_polars_sql` -/

/-- Truthiness of a value in a WHERE clause. -/
def Value.truthy : Value → Bool
  | .bool b => b
  | _ => false

/-- Evaluation of a binary operator on scalar values; operators outside
the supported set raise a runtime execution error, as the engine does. -/
def evalBin (op : String) (a b : Value) : Except AnalystError Value :=
  if op = "=" then .ok (.bool (decide (a = b)))
  else
    match op, a, b with
    | "<", .int x, .int y => .ok (.bool (decide (x < y)))
    | ">", .int x, .int y => .ok (.bool (decide (y < x)))
    | "+", .int x, .int y => .ok (.int (x + y))
    | "-", .int x, .int y => .ok (.int (x - y))
    | "*", .int x, .int y => .ok (.int (x * y))
    | "and", .bool x, .bool y => .ok (.bool (x && y))
    | "or", .bool x, .bool y => .ok (.bool (x || y))
    | _, _, _ => .error (.executionError ("unsupported operator: " ++ op))

/-- Evaluation of a scalar expression over one row of a frame with the
given column names. Function application and nested SELECTs in scalar
position are runtime failures of the embedded engine fragment. -/
def evalExpr (cols : List String) (row : List Value) : SqlExpr → Except AnalystError Value
  | .col n =>
    match cols.findIdx? (· = n) with
    | some i =>
      match row.get? i with
      | some v => .ok v
      | none => .error (.executionError ("row too short at column " ++ n))
    | none => .error (.executionError ("unknown column: " ++ n))
  | .litI n => .ok (.int n)
  | .litS s => .ok (.str s)
  | .fnApp fn _ => .error (.executionError ("unsupported function: " ++ fn))
  | .bin op a b =>
    match evalExpr cols row a with
    | .error e => .error e
    | .ok va =>
      match evalExpr cols row b with
      | .error e => .error e
      | .ok vb => evalBin op va vb
  | .sub _ => .error (.executionError "scalar subquery not supported")

/-- Monadic filter in the `Except` monad, keeping rows whose predicate
evaluates without error to a truthy value. -/
def filterE (p : α → Except AnalystError Value) : List α → Except AnalystError (List α)
  | [] => .ok []
  | a :: as =>
    match p a with
    | .error e => .error e
    | .ok v =>
      match filterE p as with
      | .error e => .error e
      | .ok rest => .ok (if v.truthy then a :: rest else rest)

/-- The output column name of one projection item: the explicit alias,
or the bare column name, or a synthesized name for other expressions. -/
def projName : SqlExpr × Option String → String
  | (_, some a) => a
  | (.col n, none) => n
  | (_, none) => "literal"

/-- Dtype of a named column in a frame, defaulting for computed
expressions. -/
def dtypeOf (df : DataFrame) (n : String) : String :=
  match df.cols.findIdx? (· = n) with
  | some i => df.dtypes.getD i "computed"
  | none => "computed"

/-- The output dtype of one projection item. -/
def projDtype (df : DataFrame) : SqlExpr × Option String → String
  | (.col n, _) => dtypeOf df n
  | _ => "computed"

/-- Evaluation of one SELECT core against an environment of named CTE
results and the active frame bound to `self`. The embedded engine
fragment covers projection and WHERE filtering; grouping and HAVING are
runtime failures of the fragment. -/
def evalCore (env : List (String × DataFrame)) (selfDf : DataFrame)
    (c : SelectCore) : Except AnalystError DataFrame :=
  if c.groupBy ≠ [] ∨ c.havingC.isSome then
    .error (.executionError "grouping not supported by embedded fragment")
  else
    match c.src with
    | .table n =>
      match (if n = "self" then some selfDf else env.lookup n) with
      | none => .error (.executionError ("unknown table: " ++ n))
      | some base =>
        let keep : Except AnalystError (List (List Value)) :=
          match c.whereC with
          | none => .ok base.rows
          | some w => filterE (fun r => evalExpr base.cols r w) base.rows
        match keep with
        | .error e => .error e
        | .ok rows =>
          match mapE (fun r => mapE (fun p => evalExpr base.cols r (Prod.fst p)) c.proj) rows with
          | .error e => .error e
          | .ok outRows =>
            .ok ⟨c.proj.map projName, c.proj.map (projDtype base), outRows⟩
    | _ => .error (.executionError "FROM source not supported by embedded fragment")

/-- Evaluation of the WITH chain, extending the environment with each
CTE result in order. -/
def evalCtes (selfDf : DataFrame) :
    List (String × SelectCore) → Except AnalystError (List (String × DataFrame))
  | [] => .ok []
  | (n, c) :: rest =>
    match evalCtes selfDf rest with
    | .error e => .error e
    | .ok env0 =>
      match evalCore env0 selfDf c with
      | .error e => .error e
      | .ok df => .ok ((n, df) :: env0)

/-- `df.sql(query)`: evaluate the CTE chain, then the body. -/
def DataFrame.sql (df : DataFrame) (q : SqlQuery) : Except AnalystError DataFrame :=
  match evalCtes df q.ctes.reverse with
  | .error e => .error e
  | .ok env => evalCore env df q.body

/-- `op_df.to_dicts()`: one record per row, pairing each output column
name with the cell value in column order. -/
def DataFrame.toDicts (df : DataFrame) : List Record :=
  df.rows.map fun r => df.cols.zip r

/-- `execute_polars_sql(file_locations, query, file_type)` from
server/analyst.py: read the file list into one frame, run the query on
it, and return the result rows as records. -/
def execute_polars_sql (store : FileStore) (locs : List String) (q : SqlQuery)
    (ft : String) : Except AnalystError (List Record) × IOLog :=
  match read_file_list store locs ft with
  | (.error e, log) => (.error e, log)
  | (.ok df, log) =>
    match df.sql q with
    | .error e => (.error e, log)
    | .ok opDf => (.ok opDf.toDicts, log)

/-- `execute_polars_sql` as a call against mutable server state: the
server holds the file store and the call returns the result together
with the state it leaves behind. -/
def execute_polars_sql_call (store : FileStore) (locs : List String)
    (q : SqlQuery) (ft : String) :
    (Except AnalystError (List Record) × IOLog) × FileStore :=
  (execute_polars_sql store locs q ft, store)

/-- Outcome of one validated query attempt: rejected before execution,
or executed with the execution result. -/
inductive PipelineOutcome where
  | rejected (r : ValidationResult)
  | executed (res : Except AnalystError (List Record))
deriving Repr

/-- Modelled from the spec: the pipeline order of sections 2 and 4.3 —
the validator runs strictly before the Query Executor, and a rejected
query is never handed to `execute_polars_sql`. The Boolean records
whether the executor was invoked. -/
def validateThenExecute (store : FileStore) (locs : List String)
    (q : SqlQuery) (schema : Schema) : PipelineOutcome × Bool :=
  match validate q schema with
  | .valid => (.executed (execute_polars_sql store locs q "csv").fst, true)
  | r => (.rejected r, false)

/-! ## Python string primitives used by the agent code -/

/-- Characters kept by Python str.strip(): drop whitespace from both
ends. -/
def stripCharList (l : List Char) : List Char :=
  ((l.dropWhile Char.isWhitespace).reverse.dropWhile Char.isWhitespace).reverse

/-- Python str.strip(). -/
def pyStrip (s : String) : String := ⟨stripCharList s.data⟩

/-- Python str.lower(). -/
def pyLower (s : String) : String := ⟨s.data.map Char.toLower⟩

/-- Is the first character list a prefix of the second? -/
def isPrefixCharList : List Char → List Char → Bool
  | [], _ => true
  | _ :: _, [] => false
  | a :: as, b :: bs => a == b && isPrefixCharList as bs

/-- Does the needle occur as a contiguous run of the haystack? -/
def containsSub (needle : List Char) : List Char → Bool
  | [] => isPrefixCharList needle []
  | c :: rest => isPrefixCharList needle (c :: rest) || containsSub needle rest

/-- Python `needle in hay`. -/
def pyIn (needle hay : String) : Bool := containsSub needle.data hay.data

/-- Python str.endswith(suffix). -/
def pyEndsWith (s suffix : String) : Bool :=
  isPrefixCharList suffix.data.reverse s.data.reverse

/-! ## The agent loop (csv_agent/csv_agent.py) -/

/-- One message of the conversation state; the flag marks messages that
carry a tool invocation. -/
structure Msg where
  content : String
  isToolCall : Bool
deriving DecidableEq, Repr

/-- The router verdict: END the graph or loop back into the reason
node. -/
inductive Route where
  | finish
  | reason
deriving DecidableEq, Repr

/-- `router_function` from AgentOptimizer.create_smart_router: END on an
empty message list or empty content, otherwise END as soon as any stop
condition holds — stripped content ending in END, more than 6 messages,
or the lowercased content containing one of the completion phrases. -/
def router_function (messages : List Msg) : Route :=
  match messages.getLast? with
  | none => .finish
  | some lastMsg =>
    let content := lastMsg.content
    if content = "" then .finish
    else
      let stopConditions : List Bool :=
        [pyEndsWith (pyStrip content) "END",
         decide (6 < messages.length),
         pyIn "final answer" (pyLower content),
         pyIn "complete" (pyLower content),
         pyIn "done" (pyLower content),
         pyIn "finished" (pyLower content)]
      if stopConditions.any id then .finish else .reason

/-- Failure raised by the graph runtime when the recursion limit is
exhausted (langgraph GraphRecursionError). -/
inductive GraphErr where
  | recursionLimit
deriving DecidableEq, Repr

/-- Modelled from the spec: the orchestration loop consumed at the
interface boundary — each superstep runs the reason node (appending its
new messages) and then the conditional edge `router_function`; the
runtime raises when its recursion limit is exhausted before END. -/
def graphInvoke (step : List Msg → List Msg) :
    Nat → List Msg → Except GraphErr (List Msg)
  | 0, _ => .error .recursionLimit
  | n + 1, msgs =>
    let msgs2 := msgs ++ step msgs
    match router_function msgs2 with
    | .finish => .ok msgs2
    | .reason => graphInvoke step n msgs2

/-- The langgraph default recursion limit, which applies in
AgentExecutor.execute because its config dict carries only the thread
id: the recursion_limit stored on the executor is never passed to
ainvoke. -/
def langgraphDefaultRecursionLimit : Nat := 25

/-- AgentExecutor.execute from csv_agent/csv_agent.py: invoke the graph
on the single human message; on success return the content of the last
message (or the no-output notice), and on a recursion-limit error
return the fixed partial-result string instead of raising. -/
def AgentExecutor.execute (step : List Msg → List Msg) (message : String) : String :=
  match graphInvoke step langgraphDefaultRecursionLimit [⟨message, false⟩] with
  | .ok msgs =>
    match msgs.getLast? with
    | some m => m.content
    | none => "⚠️ No output returned."
  | .error .recursionLimit => "Partial result due to recursion limit."

/-- Number of tool invocations recorded in a message list. -/
def toolCallCount (msgs : List Msg) : Nat :=
  (msgs.filter fun m => m.isToolCall).length

/-- Tool invocations of a finished run; an error outcome carries none. -/
def toolCallsOfOutcome : Except GraphErr (List Msg) → Nat
  | .ok msgs => toolCallCount msgs
  | .error _ => 0

/-! ## Session cache (AgentOptimizer / SchemaCache) -/

/-- The per-session mutable cache held by AgentOptimizer: the cached
file path string and the cached schema dict (insertion ordered). -/
structure OptimizerCache where
  cachedFilePath : String
  cachedSchema : List (String × String)
deriving DecidableEq, Repr

/-- AgentOptimizer.__init__: a fresh session starts with an empty file
path and an empty schema dict, whatever any earlier session held. -/
def AgentOptimizer.init (_userId : String) : OptimizerCache := ⟨"", []⟩

/-- A tool invocation against the tool host. -/
inductive ToolCall where
  | getFilesList
  | getSchema (fileLocation : String)
  | executePolarsSql (fileLocations : List String)
deriving DecidableEq, Repr

/-- Modelled from the spec: the tool boundary returns the file listing
as a sequence of path strings; the MCP adapter renders the whole result
as one text block (one path per line) before the agent strips it. The
adapter itself is outside src. -/
def toolText : List String → String
  | [] => ""
  | [p] => p
  | p :: ps => p ++ "\n" ++ toolText ps

/-- SchemaCache.cache_file_path: when no file path is cached yet, invoke
get_files_list and cache the stripped string form of its entire
result. -/
def cache_file_path (st : OptimizerCache) (files : List String) :
    OptimizerCache × List ToolCall :=
  if st.cachedFilePath = "" then
    (⟨pyStrip (toolText files), st.cachedSchema⟩, [.getFilesList])
  else (st, [])

/-- Python dict assignment d[k] = v on an insertion-ordered dict. -/
def dictInsert : List (String × String) → String → String → List (String × String)
  | [], k, v => [(k, v)]
  | (k0, v0) :: rest, k, v =>
    if k0 = k then (k0, v) :: rest else (k0, v0) :: dictInsert rest k v

/-- The schema-dict population loop of SchemaCache.cache_schema: insert
each (name, dtype) item into the existing dict. -/
def buildSchemaDict (d : List (String × String)) (items : List SchemaCol) :
    List (String × String) :=
  items.foldl (fun acc it => dictInsert acc it.name it.dtype) d

/-- SchemaCache.cache_schema: with no cached file path, mark the schema
cache empty and return without any tool call; otherwise, when the
schema cache is empty, invoke get_schema on the cached path and
populate the dict. -/
def cache_schema (st : OptimizerCache) (schemaOracle : String → List SchemaCol) :
    OptimizerCache × List ToolCall :=
  if st.cachedFilePath = "" then (⟨st.cachedFilePath, []⟩, [])
  else if st.cachedSchema = [] then
    (⟨st.cachedFilePath, buildSchemaDict st.cachedSchema (schemaOracle st.cachedFilePath)⟩,
     [.getSchema st.cachedFilePath])
  else (st, [])

/-- One cache operation performed during a session, carrying the data
the tool host would answer with. -/
inductive SessionOp where
  | opFilePath (files : List String)
  | opSchema (oracle : String → List SchemaCol)

/-- Apply one cache operation to the session cache. -/
def applyOp (st : OptimizerCache) : SessionOp → OptimizerCache
  | .opFilePath files => (cache_file_path st files).fst
  | .opSchema oracle => (cache_schema st oracle).fst

/-- Run a sequence of cache operations. -/
def foldOps (st : OptimizerCache) (ops : List SessionOp) : OptimizerCache :=
  ops.foldl applyOp st

/-- How many operations of the sequence change the cached file path
value. -/
def pathChanges (st : OptimizerCache) : List SessionOp → Nat
  | [] => 0
  | op :: rest =>
    let st2 := applyOp st op
    (if st2.cachedFilePath = st.cachedFilePath then 0 else 1) + pathChanges st2 rest

/-- How many operations of the sequence change the cached schema
value. -/
def schemaChanges (st : OptimizerCache) : List SessionOp → Nat
  | [] => 0
  | op :: rest =>
    let st2 := applyOp st op
    (if st2.cachedSchema = st.cachedSchema then 0 else 1) + schemaChanges st2 rest

/-! ## Pre-check state machine and result shaper (spec sections 4.5) -/

/-- The pre-check states of the spec: NoFiles, HasFiles(no schema),
Ready, and the terminal EmptyOnly. -/
inductive PreCheckState where
  | noFiles
  | hasFilesNoSchema
  | ready
  | emptyOnly
deriving DecidableEq, Repr

/-- The fixed user-visible response of the terminal EmptyOnly state. -/
def emptyDataResponse : String :=
  "No file is present and there is nothing to analyze."

/-- Modelled from the spec: classification of the cached session state —
empty file path means NoFiles, a cached path with an empty schema means
HasFiles(no schema), both cached means Ready. -/
def preCheckState (st : OptimizerCache) : PreCheckState :=
  if st.cachedFilePath = "" then .noFiles
  else if st.cachedSchema = [] then .hasFilesNoSchema
  else .ready

/-- Modelled from the spec: the transitions of the pre-check machine —
NoFiles moves to the terminal EmptyOnly, HasFiles(no schema) is treated
identically to EmptyOnly, Ready stays. -/
def preCheckTerminal : PreCheckState → PreCheckState
  | .noFiles => .emptyOnly
  | .hasFilesNoSchema => .emptyOnly
  | s => s

/-- The observable outcome of one session: the tool calls made, the
user-visible response, and the final pre-check state. -/
structure SessionResult where
  calls : List ToolCall
  response : String
  finalState : PreCheckState
deriving DecidableEq, Repr

/-- Modelled from the spec: one session as run by CSVAnalysisAgent.run —
the cache population from the source (cache_file_path then
cache_schema), then the pre-check machine; in the terminal EmptyOnly
state the fixed response is returned and no further tool calls are
permitted, otherwise the agent phase runs with whatever answer and
tool calls it produces. -/
def runSession (files : List String) (oracle : String → List SchemaCol)
    (agentAnswer : String) (agentCalls : List ToolCall) : SessionResult :=
  let st0 := AgentOptimizer.init "default_user"
  let r1 := cache_file_path st0 files
  let r2 := cache_schema r1.fst oracle
  match preCheckTerminal (preCheckState r2.fst) with
  | .emptyOnly => ⟨r1.snd ++ r2.snd, emptyDataResponse, .emptyOnly⟩
  | s => ⟨r1.snd ++ r2.snd ++ agentCalls, agentAnswer, s⟩

/-- Display modes of the Result Shaper. -/
inductive ShapeMode where
  | chat
  | metric
deriving DecidableEq, Repr

/-- A display payload: a capped table, the explicit empty-result marker,
or the full metric payload. -/
inductive DisplayPayload where
  | table (rows : List Record)
  | emptyResult
  | metricPayload (rows : List Record)
deriving DecidableEq, Repr

/-- Modelled from the spec: the Result Shaper of section 4.5 — absent
from the source, where row capping exists only as prompt text. Chat
mode returns the explicit empty-result marker on an empty record
sequence and otherwise caps the rendered rows at 10; metric mode
returns the full record sequence. -/
def shape (records : List Record) : ShapeMode → DisplayPayload
  | .chat => if records = [] then .emptyResult else .table (records.take 10)
  | .metric => .metricPayload records

/-- Number of rows a payload renders. -/
def displayedRowCount : DisplayPayload → Nat
  | .table rows => rows.length
  | .emptyResult => 0
  | .metricPayload rows => rows.length

/-- FileCache.cache_file_path from dashboardagent.py: the same pattern
as the csv agent — when csv_path is unset, invoke get_files_list and
store the stripped text of its entire result. -/
def dashboard_cache_file_path (csvPath : Option String) (files : List String) :
    Option String × List ToolCall :=
  match csvPath with
  | none => (some (pyStrip (toolText files)), [.getFilesList])
  | some p => (some p, [])

/-! ## Shared lemmas -/

/-- `mapE` only looks at the function values on the list elements. -/
lemma mapE_congr {α β : Type} {f g : α → Except AnalystError β} :
    ∀ l : List α, (∀ a ∈ l, f a = g a) → mapE f l = mapE g l
  | [], _ => rfl
  | a :: as, h => by
    simp only [mapE]
    rw [h a (List.mem_cons_self a as),
      mapE_congr as (fun b hb => h b (List.mem_cons_of_mem a hb))]

/-- `mapE` of an everywhere-successful function succeeds with the mapped
list. -/
lemma mapE_ok {α β : Type} {f : α → Except AnalystError β} {g : α → β} :
    ∀ l : List α, (∀ a ∈ l, f a = .ok (g a)) → mapE f l = .ok (l.map g)
  | [], _ => rfl
  | a :: as, h => by
    simp only [mapE, List.map]
    rw [h a (List.mem_cons_self a as),
      mapE_ok as (fun b hb => h b (List.mem_cons_of_mem a hb))]

/-- Vertical concatenation of a non-empty list of frames that all share
one schema succeeds with the rows appended in order. -/
lemma vconcat_uniform (cols dts : List String) :
    ∀ rss : List (List (List Value)), rss ≠ [] →
      vconcat (rss.map fun rs => DataFrame.mk cols dts rs) = .ok ⟨cols, dts, rss.flatten⟩
  | [], h => absurd rfl h
  | [rs], _ => by simp [vconcat]
  | rs1 :: rs2 :: rest, _ => by
    have ih := vconcat_uniform cols dts (rs2 :: rest) (by simp)
    simp only [List.map] at ih ⊢
    simp only [vconcat, ih, vconcat2, and_self, if_pos, List.flatten]

/-! ## C7: unsupported file types are rejected before any read -/

/-- C7: for every file_type other than csv and parquet, `read_file`,
`read_file_list` and `get_schema` all fail with the unsupported-file-
type error, with no file opened and no materialization performed. -/
theorem c7_unsupported_file_type_rejected (store : FileStore) (loc : String)
    (locs : List String) (ft : String) (hcsv : ft ≠ "csv") (hpq : ft ≠ "parquet") :
    read_file store loc ft = (.error (.unsupportedFileType ft), ⟨[], 0⟩) ∧
    read_file_list store locs ft = (.error (.unsupportedFileType ft), ⟨[], 0⟩) ∧
    get_schema store loc ft = (.error (.unsupportedFileType ft), ⟨[], 0⟩) := by
  refine ⟨?_, ?_, ?_⟩ <;> simp [read_file, read_file_list, get_schema, hcsv, hpq]

/-- C7 witness: the json file type is rejected everywhere with no read. -/
theorem c7_witness :
    read_file [] "data.json" "json" = (.error (.unsupportedFileType "json"), ⟨[], 0⟩) ∧
    read_file_list [] ["data.json"] "json" = (.error (.unsupportedFileType "json"), ⟨[], 0⟩) ∧
    get_schema [] "data.json" "json" = (.error (.unsupportedFileType "json"), ⟨[], 0⟩) :=
  c7_unsupported_file_type_rejected [] "data.json" ["data.json"] "json"
    (by decide) (by decide)

/-! ## C2: loading two files with differing column sets fails -/

/-- C2: loading two files whose column sets differ fails with the
schema-mismatch error of the concatenation and yields no frame at all:
no coercion, no column dropping, no partial Dataset. -/
theorem c2_schema_mismatch_rejected (store : FileStore) (f1 f2 : String)
    (df1 df2 : DataFrame) (h1 : store.lookup f1 = some df1)
    (h2 : store.lookup f2 = some df2) (hne : df1.cols ≠ df2.cols) :
    (read_file_list store [f1, f2] "csv").fst =
      .error (.schemaMismatch df1.cols df2.cols) ∧
    ∀ df : DataFrame, (read_file_list store [f1, f2] "csv").fst ≠ .ok df := by
  have hcond : ¬(df1.cols = df2.cols ∧ df1.dtypes = df2.dtypes) := fun hc => hne hc.1
  constructor
  · simp [read_file_list, pl_concat, scan_csv, LazyConcat.collect, mapE, readTable,
      h1, h2, vconcat, vconcat2, hcond]
  · intro df
    simp [read_file_list, pl_concat, scan_csv, LazyConcat.collect, mapE, readTable,
      h1, h2, vconcat, vconcat2, hcond]

/-- C2 witness: two concrete one-column files with different column
sets. -/
theorem c2_witness :
    (read_file_list
        [("a.csv", ⟨["x"], ["i64"], [[Value.int 1]]⟩),
         ("b.csv", ⟨["y"], ["i64"], [[Value.int 2]]⟩)]
        ["a.csv", "b.csv"] "csv").fst =
      .error (.schemaMismatch ["x"] ["y"]) ∧
    ∀ df : DataFrame,
      (read_file_list
        [("a.csv", ⟨["x"], ["i64"], [[Value.int 1]]⟩),
         ("b.csv", ⟨["y"], ["i64"], [[Value.int 2]]⟩)]
        ["a.csv", "b.csv"] "csv").fst ≠ .ok df :=
  c2_schema_mismatch_rejected _ "a.csv" "b.csv" ⟨["x"], ["i64"], [[Value.int 1]]⟩
    ⟨["y"], ["i64"], [[Value.int 2]]⟩ (by decide) (by decide) (by decide)

/-! ## C6: the lazy multi-file load refines per-file eager reads -/

/-- The rows stored at a path, empty when the path is absent. -/
def rowsAt (store : FileStore) (f : String) : List (List Value) :=
  match store.lookup f with
  | some df => df.rows
  | none => []

/-- The specification-side loader: read each file individually through
`read_file` and concatenate the per-file frames eagerly, in input
order. -/
def eagerReadConcat (store : FileStore) (locs : List String) :
    Except AnalystError DataFrame :=
  match mapE (fun f => (read_file store f "csv").fst) locs with
  | .error e => .error e
  | .ok dfs => vconcat dfs

/-- `mapE` over a mapped list fuses. -/
lemma mapE_map {α β γ : Type} {f : β → Except AnalystError γ} {g : α → β} :
    ∀ l : List α, mapE f (l.map g) = mapE (fun a => f (g a)) l
  | [] => rfl
  | a :: as => by simp only [List.map, mapE, mapE_map as]

/-- C6: for a non-empty list of same-schema csv files, the lazy
scan-concat-collect load performs exactly one materialization pass and
returns the row-wise concatenation, in input order, of the files, which
is exactly what reading each file individually and concatenating
eagerly produces. -/
theorem c6_lazy_load_refines_eager (store : FileStore) (locs : List String)
    (cols dts : List String) (hne : locs ≠ [])
    (h : ∀ f ∈ locs, ∃ rows, store.lookup f = some (DataFrame.mk cols dts rows)) :
    (read_file_list store locs "csv").fst =
      .ok ⟨cols, dts, (locs.map (rowsAt store)).flatten⟩ ∧
    (read_file_list store locs "csv").fst = eagerReadConcat store locs ∧
    (read_file_list store locs "csv").snd.materializations = 1 := by
  have hread : ∀ f ∈ locs, readTable store f = .ok (DataFrame.mk cols dts (rowsAt store f)) := by
    intro f hf
    obtain ⟨rows, hr⟩ := h f hf
    simp [readTable, rowsAt, hr]
  have hm1 : mapE (fun a => readTable store (scan_csv a).path) locs =
      .ok ((locs.map (rowsAt store)).map fun rs => DataFrame.mk cols dts rs) := by
    have hstep : mapE (fun a => readTable store (scan_csv a).path) locs =
        .ok (locs.map fun f => DataFrame.mk cols dts (rowsAt store f)) :=
      mapE_ok locs fun f hf => hread f hf
    rw [hstep, List.map_map]
    rfl
  have hvc := vconcat_uniform cols dts (locs.map (rowsAt store)) (by simpa using hne)
  have hcollect :
      (pl_concat (locs.map scan_csv)).collect store =
        .ok ⟨cols, dts, (locs.map (rowsAt store)).flatten⟩ := by
    simp only [LazyConcat.collect, pl_concat, mapE_map, hm1]
    exact hvc
  have hm2 : mapE (fun f => (read_file store f "csv").fst) locs =
      .ok ((locs.map (rowsAt store)).map fun rs => DataFrame.mk cols dts rs) := by
    have hstep : mapE (fun f => (read_file store f "csv").fst) locs =
        .ok (locs.map fun f => DataFrame.mk cols dts (rowsAt store f)) :=
      mapE_ok locs fun f hf => by simpa [read_file] using hread f hf
    rw [hstep, List.map_map]
    rfl
  have heager : eagerReadConcat store locs =
      .ok ⟨cols, dts, (locs.map (rowsAt store)).flatten⟩ := by
    simp only [eagerReadConcat, hm2]
    exact hvc
  refine ⟨?_, ?_, ?_⟩
  · simpa [read_file_list] using hcollect
  · rw [heager]
    simpa [read_file_list] using hcollect
  · simp [read_file_list]

/-- C6 witness: two concrete same-schema files concatenate in input
order under one materialization pass. -/
theorem c6_witness :
    (read_file_list
        [("a.csv", ⟨["team"], ["str"], [[Value.str "MI"]]⟩),
         ("b.csv", ⟨["team"], ["str"], [[Value.str "CSK"]]⟩)]
        ["a.csv", "b.csv"] "csv").fst =
      .ok ⟨["team"], ["str"],
        ((["a.csv", "b.csv"].map (rowsAt
          [("a.csv", ⟨["team"], ["str"], [[Value.str "MI"]]⟩),
           ("b.csv", ⟨["team"], ["str"], [[Value.str "CSK"]]⟩)])).flatten)⟩ ∧
    (read_file_list
        [("a.csv", ⟨["team"], ["str"], [[Value.str "MI"]]⟩),
         ("b.csv", ⟨["team"], ["str"], [[Value.str "CSK"]]⟩)]
        ["a.csv", "b.csv"] "csv").fst =
      eagerReadConcat
        [("a.csv", ⟨["team"], ["str"], [[Value.str "MI"]]⟩),
         ("b.csv", ⟨["team"], ["str"], [[Value.str "CSK"]]⟩)]
        ["a.csv", "b.csv"] ∧
    (read_file_list
        [("a.csv", ⟨["team"], ["str"], [[Value.str "MI"]]⟩),
         ("b.csv", ⟨["team"], ["str"], [[Value.str "CSK"]]⟩)]
        ["a.csv", "b.csv"] "csv").snd.materializations = 1 :=
  c6_lazy_load_refines_eager _ ["a.csv", "b.csv"] ["team"] ["str"]
    (by decide)
    (by
      intro f hf
      rcases List.mem_cons.mp hf with rfl | hf2
      · exact ⟨[[Value.str "MI"]], rfl⟩
      · rcases List.mem_cons.mp hf2 with rfl | h3
        · exact ⟨[[Value.str "CSK"]], rfl⟩
        · exact absurd h3 (List.not_mem_nil f))

/-! ## C5: query execution is pure and repeatable -/

/-- `readTable` only depends on the lookup of its own path. -/
lemma readTable_congr (store store2 : FileStore) (f : String)
    (h : List.lookup f store = List.lookup f store2) :
    readTable store f = readTable store2 f := by
  simp [readTable, h]

/-- `read_file_list` only depends on the lookups of the listed paths. -/
lemma read_file_list_congr (store store2 : FileStore) (locs : List String)
    (ft : String) (h : ∀ f ∈ locs, List.lookup f store = List.lookup f store2) :
    read_file_list store locs ft = read_file_list store2 locs ft := by
  by_cases h1 : ft = "csv"
  · subst h1
    have hm : mapE (fun a => readTable store (scan_csv a).path) locs =
        mapE (fun a => readTable store2 (scan_csv a).path) locs :=
      mapE_congr locs fun f hf => readTable_congr store store2 f (h f hf)
    simp only [read_file_list, LazyConcat.collect, pl_concat, mapE_map, hm]
    simp
  · by_cases h2 : ft = "parquet"
    · subst h2
      have hm : mapE (readTable store) locs = mapE (readTable store2) locs :=
        mapE_congr locs fun f hf => readTable_congr store store2 f (h f hf)
      simp only [read_file_list, readParquetMulti, hm]
      simp
    · simp [read_file_list, h1, h2]

/-- C5: executing the same query twice against the unchanged server
state returns identical Result Record sequences, the call leaves the
file store exactly as it found it, and the outcome depends only on the
contents of the listed dataset files. -/
theorem c5_execute_idempotent_pure (store store2 : FileStore) (locs : List String)
    (q : SqlQuery) (ft : String)
    (hagree : ∀ f ∈ locs, List.lookup f store = List.lookup f store2) :
    (execute_polars_sql_call store locs q ft).snd = store ∧
    (execute_polars_sql_call (execute_polars_sql_call store locs q ft).snd locs q ft).fst =
      (execute_polars_sql_call store locs q ft).fst ∧
    execute_polars_sql store locs q ft = execute_polars_sql store2 locs q ft := by
  refine ⟨rfl, rfl, ?_⟩
  simp only [execute_polars_sql]
  rw [read_file_list_congr store store2 locs ft hagree]

/-- C5 witness: a concrete projection query against a one-file store,
with a second store agreeing on the listed file. -/
theorem c5_witness :
    (execute_polars_sql_call
        [("a.csv", ⟨["team"], ["str"], [[Value.str "MI"]]⟩)]
        ["a.csv"] ⟨[], .mk [(.col "team", none)] (.table "self") none [] none⟩
        "csv").snd =
      [("a.csv", ⟨["team"], ["str"], [[Value.str "MI"]]⟩)] ∧
    (execute_polars_sql_call
        (execute_polars_sql_call
          [("a.csv", ⟨["team"], ["str"], [[Value.str "MI"]]⟩)]
          ["a.csv"] ⟨[], .mk [(.col "team", none)] (.table "self") none [] none⟩
          "csv").snd
        ["a.csv"] ⟨[], .mk [(.col "team", none)] (.table "self") none [] none⟩
        "csv").fst =
      (execute_polars_sql_call
        [("a.csv", ⟨["team"], ["str"], [[Value.str "MI"]]⟩)]
        ["a.csv"] ⟨[], .mk [(.col "team", none)] (.table "self") none [] none⟩
        "csv").fst ∧
    execute_polars_sql
        [("a.csv", ⟨["team"], ["str"], [[Value.str "MI"]]⟩)]
        ["a.csv"] ⟨[], .mk [(.col "team", none)] (.table "self") none [] none⟩
        "csv" =
      execute_polars_sql
        [("a.csv", ⟨["team"], ["str"], [[Value.str "MI"]]⟩),
         ("other.csv", ⟨["x"], ["i64"], []⟩)]
        ["a.csv"] ⟨[], .mk [(.col "team", none)] (.table "self") none [] none⟩
        "csv" :=
  c5_execute_idempotent_pure
    [("a.csv", ⟨["team"], ["str"], [[Value.str "MI"]]⟩)]
    [("a.csv", ⟨["team"], ["str"], [[Value.str "MI"]]⟩),
     ("other.csv", ⟨["x"], ["i64"], []⟩)]
    ["a.csv"] ⟨[], .mk [(.col "team", none)] (.table "self") none [] none⟩ "csv"
    (by decide)

/-! ## C1: nested SELECTs and the validator rule order -/

/-- The schema of the concrete scenarios of spec section 8. -/
def demoSchema : Schema := [⟨"team", "str"⟩, ⟨"runs", "i64"⟩]

/-- The nested SELECT SUM(runs) FROM self used by the scenarios. -/
def sumSubSelect : SelectCore :=
  .mk [(.fnApp "sum" [.col "runs"], some "total")] (.table "self") none [] none

/-- SELECT team, (SELECT SUM(runs) FROM self) AS total FROM self — the
illegal-subquery scenario of spec section 8. -/
def subqueryInProjection : SqlQuery :=
  ⟨[], .mk [(.col "team", none), (.sub sumSubSelect, some "total")]
      (.table "self") none [] none⟩

/-- SELECT team FROM games WHERE (SELECT SUM(runs) FROM self) > 0 — a
query containing a nested SELECT together with an unknown base
table. -/
def subqueryWithUnknownTable : SqlQuery :=
  ⟨[], .mk [(.col "team", none)] (.table "games")
      (some (.bin ">" (.sub sumSubSelect) (.litI 0))) [] none⟩

/-- The CTE-composed scenario of spec section 8: WITH totals AS (SELECT
team AS team, SUM(runs) AS total_runs FROM self GROUP BY team) SELECT
team, total_runs FROM totals. -/
def ctListScenario : SqlQuery :=
  ⟨[("totals", .mk [(.col "team", some "team"),
      (.fnApp "sum" [.col "runs"], some "total_runs")]
      (.table "self") none ["team"] none)],
    .mk [(.col "team", none), (.col "total_runs", none)]
      (.table "totals") none [] none⟩

example : validate ctListScenario demoSchema = .valid := by decide

example : validate subqueryInProjection demoSchema = .illegalSubquery := by decide

/-- C1 counterexample: a query that contains a nested SELECT inside its
WHERE clause but also references an unknown base table is rejected as
UnknownTable, not IllegalSubquery — the table-reference rule of the
validator runs first, so the claimed verdict does not hold regardless
of other content. -/
theorem c1_counterexample :
    queryHasSub subqueryWithUnknownTable = true ∧
    validate subqueryWithUnknownTable demoSchema = .unknownTable "games" ∧
    validate subqueryWithUnknownTable demoSchema ≠ .illegalSubquery := by
  refine ⟨by decide, by decide, by decide⟩

/-- C1 (amended): for every query containing a nested SELECT inside a
projection list, WHERE, HAVING or FROM position, whose base-relation
identifiers are all legal (so that the earlier table-reference rule
does not fire first), validation rejects it as IllegalSubquery, and
the validate-then-execute pipeline never invokes the executor on it. -/
theorem c1_subquery_rejected_before_execution (q : SqlQuery) (schema : Schema)
    (store : FileStore) (locs : List String)
    (hsub : queryHasSub q = true)
    (htab : ∀ t ∈ queryTables q, (allowedTables q).contains t = true) :
    validate q schema = .illegalSubquery ∧
    (validateThenExecute store locs q schema).snd = false := by
  have hfind : (queryTables q).find? (fun t => !(allowedTables q).contains t) = none := by
    apply List.find?_eq_none.mpr
    intro t ht
    show ¬(!(allowedTables q).contains t) = true
    rw [htab t ht]
    decide
  have hval : validate q schema = .illegalSubquery := by
    simp only [validate, hfind, hsub, if_true]
  refine ⟨hval, ?_⟩
  simp only [validateThenExecute, hval]

/-- C1 witness: the concrete subquery-in-projection scenario is
rejected as IllegalSubquery without the executor ever being invoked. -/
theorem c1_witness :
    validate subqueryInProjection demoSchema = .illegalSubquery ∧
    (validateThenExecute [] ["data.csv"] subqueryInProjection demoSchema).snd = false :=
  c1_subquery_rejected_before_execution subqueryInProjection demoSchema [] ["data.csv"]
    (by decide) (by decide)

/-! ## C3: empty file listing reaches the terminal EmptyOnly state -/

/-- Is a tool call a schema fetch or a query execution? -/
def isSchemaOrExecCall : ToolCall → Bool
  | .getSchema _ => true
  | .executePolarsSql _ => true
  | .getFilesList => false

/-- C3: when get_files_list returns an empty sequence, the session makes
that one tool call and no other, reaches the terminal EmptyOnly state,
answers with exactly the fixed message, and in particular never calls
get_schema or execute_polars_sql. -/
theorem c3_empty_files_terminal (oracle : String → List SchemaCol)
    (agentAnswer : String) (agentCalls : List ToolCall) :
    runSession [] oracle agentAnswer agentCalls =
      ⟨[ToolCall.getFilesList], emptyDataResponse, .emptyOnly⟩ ∧
    (runSession [] oracle agentAnswer agentCalls).response =
      "No file is present and there is nothing to analyze." ∧
    ((runSession [] oracle agentAnswer agentCalls).calls.filter isSchemaOrExecCall) = [] := by
  refine ⟨rfl, rfl, rfl⟩

/-! ## C8: chat-mode row cap and explicit empty-result marker -/

/-- C8: shaping more than 10 records in chat mode renders exactly 10
rows (the first 10, leaving the underlying record sequence itself
untouched), while an empty record sequence yields the explicit
empty-result marker instead of an empty table. -/
theorem c8_chat_caps_rows_at_ten (records : List Record)
    (h : 10 < records.length) :
    shape records ShapeMode.chat = DisplayPayload.table (records.take 10) ∧
    displayedRowCount (shape records ShapeMode.chat) = 10 ∧
    shape ([] : List Record) ShapeMode.chat = DisplayPayload.emptyResult := by
  have hne : records ≠ [] := by
    intro he
    rw [he] at h
    simp at h
  refine ⟨by simp [shape, hne], ?_, rfl⟩
  simp [shape, displayedRowCount, hne, List.length_take]
  omega

/-- C8 witness: 37 executed records render as exactly 10 rows in chat
mode. -/
theorem c8_witness :
    shape (List.replicate 37 [("team", Value.str "MI")]) ShapeMode.chat =
      DisplayPayload.table ((List.replicate 37 [("team", Value.str "MI")]).take 10) ∧
    displayedRowCount (shape (List.replicate 37 [("team", Value.str "MI")]) ShapeMode.chat) = 10 ∧
    shape ([] : List Record) ShapeMode.chat = DisplayPayload.emptyResult :=
  c8_chat_caps_rows_at_ten (List.replicate 37 [("team", Value.str "MI")]) (by decide)

/-! ## C4: the question-answering loop is bounded -/

/-- If the router decides to continue, the message count has not yet
exceeded 6: the length stop condition forces END beyond that. -/
lemma router_reason_length (m : List Msg) (h : router_function m = Route.reason) :
    m.length ≤ 6 := by
  by_contra hgt
  push_neg at hgt
  cases hl : m.getLast? with
  | none => simp [router_function, hl] at h
  | some lastMsg =>
    simp only [router_function, hl] at h
    by_cases hc : lastMsg.content = ""
    · simp [hc] at h
    · rw [if_neg hc] at h
      have hany : ([pyEndsWith (pyStrip lastMsg.content) "END",
          decide (6 < m.length),
          pyIn "final answer" (pyLower lastMsg.content),
          pyIn "complete" (pyLower lastMsg.content),
          pyIn "done" (pyLower lastMsg.content),
          pyIn "finished" (pyLower lastMsg.content)].any id) = true := by
        simp only [List.any_cons, id]
        rw [decide_eq_true hgt]
        simp
      rw [if_pos hany] at h
      exact absurd h (by decide)

/-- With enough fuel, the loop always reaches END: the router ends once
the message list exceeds 6 entries and each superstep appends at least
one message. -/
lemma graphInvoke_ok_of_budget (step : List Msg → List Msg)
    (hne : ∀ m, step m ≠ []) :
    ∀ (fuel : Nat) (msgs : List Msg), 1 ≤ fuel → 6 < fuel + msgs.length →
      ∃ out, graphInvoke step fuel msgs = .ok out := by
  intro fuel
  induction fuel with
  | zero => intro msgs h1 _; omega
  | succ n ih =>
    intro msgs _ hbound
    simp only [graphInvoke]
    cases hr : router_function (msgs ++ step msgs) with
    | finish => exact ⟨msgs ++ step msgs, rfl⟩
    | reason =>
      have hlen2 := router_reason_length _ hr
      have hstep : 1 ≤ (step msgs).length := List.length_pos.mpr (hne msgs)
      rw [List.length_append] at hlen2
      have hn1 : 1 ≤ n := by omega
      have hbound2 : 6 < n + (msgs ++ step msgs).length := by
        rw [List.length_append]
        omega
      exact ih (msgs ++ step msgs) hn1 hbound2

/-- A reason node that always answers with one more tool invocation. -/
def toolStep : List Msg → List Msg := fun _ => [⟨"calling tool", true⟩]

/-- A reason node that produces nothing, so the graph spins until its
recursion limit is exhausted. -/
def silentStep : List Msg → List Msg := fun _ => []

/-- C4 counterexample: a run that completes normally (reaching END via
the message-count condition) after six tool invocations — the code
enforces no two-tool-invocation cap on the loop. -/
theorem c4_counterexample :
    graphInvoke toolStep langgraphDefaultRecursionLimit [⟨"list the files", false⟩] =
      .ok ([⟨"list the files", false⟩] ++ List.replicate 6 ⟨"calling tool", true⟩) ∧
    toolCallsOfOutcome
      (graphInvoke toolStep langgraphDefaultRecursionLimit [⟨"list the files", false⟩]) = 6 := by
  refine ⟨rfl, rfl⟩

/-- C4 (amended): the loop is capped by a fixed structural bound — any
reason node that keeps producing messages drives the router to END
within the default recursion budget (at most 6 supersteps, since the
router stops beyond 6 messages) — and when the graph does exhaust its
recursion limit, AgentExecutor.execute returns the fixed partial-result
string instead of raising; but no bound of 2 tool invocations is
enforced anywhere in the loop. -/
theorem c4_loop_bounded_fallback (step : List Msg → List Msg) (q : String) :
    ((∀ m, step m ≠ []) →
      ∃ out, graphInvoke step langgraphDefaultRecursionLimit [⟨q, false⟩] = .ok out) ∧
    (∀ step2 : List Msg → List Msg,
      graphInvoke step2 langgraphDefaultRecursionLimit [⟨q, false⟩] = .error .recursionLimit →
      AgentExecutor.execute step2 q = "Partial result due to recursion limit.") := by
  constructor
  · intro hne
    exact graphInvoke_ok_of_budget step hne langgraphDefaultRecursionLimit
      [⟨q, false⟩] (by decide) (by simp [langgraphDefaultRecursionLimit])
  · intro step2 herr
    simp only [AgentExecutor.execute, herr]

/-- C4 witness: the tool-calling node terminates normally within the
budget, and a node that starves the router makes execute return the
partial-result string. -/
theorem c4_witness :
    (∃ out, graphInvoke toolStep langgraphDefaultRecursionLimit
      [⟨"list the files", false⟩] = .ok out) ∧
    AgentExecutor.execute silentStep "list the files" =
      "Partial result due to recursion limit." :=
  ⟨(c4_loop_bounded_fallback toolStep "list the files").1
      (fun m => by simp [toolStep]),
    (c4_loop_bounded_fallback silentStep "list the files").2 silentStep rfl⟩

/-! ## C9: the session cache is populated at most once -/

/-- A cached file path is never overwritten by a later cache
operation. -/
lemma applyOp_path_stable (st : OptimizerCache) (op : SessionOp)
    (h : st.cachedFilePath ≠ "") :
    (applyOp st op).cachedFilePath = st.cachedFilePath := by
  cases op with
  | opFilePath files => simp [applyOp, cache_file_path, h]
  | opSchema oracle =>
    simp only [applyOp, cache_schema, if_neg h]
    split
    · rfl
    · rfl

/-- Once both the file path and the schema are cached, every later cache
operation leaves the state untouched. -/
lemma applyOp_fixed (st : OptimizerCache) (op : SessionOp)
    (hp : st.cachedFilePath ≠ "") (hs : st.cachedSchema ≠ []) :
    applyOp st op = st := by
  cases op with
  | opFilePath files => simp [applyOp, cache_file_path, hp]
  | opSchema oracle => simp [applyOp, cache_schema, hp, hs]

/-- The session invariant: whenever the file path is empty so is the
schema cache; preserved by every cache operation. -/
lemma applyOp_inv (st : OptimizerCache) (op : SessionOp)
    (hinv : st.cachedFilePath = "" → st.cachedSchema = []) :
    (applyOp st op).cachedFilePath = "" → (applyOp st op).cachedSchema = [] := by
  cases op with
  | opFilePath files =>
    by_cases hp : st.cachedFilePath = ""
    · intro _
      simp only [applyOp, cache_file_path, if_pos hp]
      exact hinv hp
    · simp only [applyOp, cache_file_path, if_neg hp]
      exact hinv
  | opSchema oracle =>
    by_cases hp : st.cachedFilePath = ""
    · simp [applyOp, cache_schema, hp]
    · simp only [applyOp, cache_schema, if_neg hp]
      split
      · intro hpp
        exact absurd hpp hp
      · intro hpp
        exact absurd hpp hp

/-- A schema-cache operation either leaves the schema value unchanged or
produces a state with both caches populated. -/
lemma applyOp_schema_cases (st : OptimizerCache) (op : SessionOp)
    (hinv : st.cachedFilePath = "" → st.cachedSchema = []) :
    (applyOp st op).cachedSchema = st.cachedSchema ∨
      ((applyOp st op).cachedSchema ≠ [] ∧ (applyOp st op).cachedFilePath ≠ "") := by
  cases op with
  | opFilePath files =>
    left
    by_cases hp : st.cachedFilePath = ""
    · simp [applyOp, cache_file_path, hp]
    · simp [applyOp, cache_file_path, hp]
  | opSchema oracle =>
    by_cases hp : st.cachedFilePath = ""
    · left
      simp [applyOp, cache_schema, hp, hinv hp]
    · by_cases hs : st.cachedSchema = []
      · by_cases hb : buildSchemaDict [] (oracle st.cachedFilePath) = []
        · left
          simp [applyOp, cache_schema, hp, hs, hb]
        · right
          constructor
          · simpa [applyOp, cache_schema, hp, hs] using hb
          · simp [applyOp, cache_schema, hp, hs]
      · left
        simp [applyOp, cache_schema, hp, hs]

/-- Running any operation sequence from a state whose file path is set
keeps the file path value. -/
lemma foldOps_path_stable :
    ∀ (ops : List SessionOp) (st : OptimizerCache), st.cachedFilePath ≠ "" →
      (foldOps st ops).cachedFilePath = st.cachedFilePath
  | [], _, _ => rfl
  | op :: rest, st, h => by
    have h1 := applyOp_path_stable st op h
    have h2 := foldOps_path_stable rest (applyOp st op) (by rw [h1]; exact h)
    simpa [foldOps, h1] using h2

/-- Running any operation sequence from a fully populated state changes
nothing. -/
lemma foldOps_fixed :
    ∀ (ops : List SessionOp) (st : OptimizerCache), st.cachedFilePath ≠ "" →
      st.cachedSchema ≠ [] → foldOps st ops = st
  | [], _, _, _ => rfl
  | op :: rest, st, hp, hs => by
    have h1 := applyOp_fixed st op hp hs
    simp only [foldOps, List.foldl_cons]
    rw [h1]
    exact foldOps_fixed rest st hp hs

/-- The session invariant holds along any run. -/
lemma foldOps_inv :
    ∀ (ops : List SessionOp) (st : OptimizerCache),
      (st.cachedFilePath = "" → st.cachedSchema = []) →
      ((foldOps st ops).cachedFilePath = "" → (foldOps st ops).cachedSchema = [])
  | [], _, hinv => hinv
  | op :: rest, st, hinv => by
    simp only [foldOps, List.foldl_cons]
    exact foldOps_inv rest (applyOp st op) (applyOp_inv st op hinv)

/-- From a state with the file path set, no operation sequence changes
the file path value at all. -/
lemma pathChanges_zero :
    ∀ (ops : List SessionOp) (st : OptimizerCache), st.cachedFilePath ≠ "" →
      pathChanges st ops = 0
  | [], _, _ => rfl
  | op :: rest, st, h => by
    have h1 := applyOp_path_stable st op h
    simp only [pathChanges, h1, if_pos]
    rw [pathChanges_zero rest (applyOp st op) (by rw [h1]; exact h)]

/-- The cached file path value changes at most once over any operation
sequence. -/
lemma pathChanges_le_one :
    ∀ (ops : List SessionOp) (st : OptimizerCache), pathChanges st ops ≤ 1
  | [], _ => by simp [pathChanges]
  | op :: rest, st => by
    by_cases hch : (applyOp st op).cachedFilePath = st.cachedFilePath
    · simp only [pathChanges, if_pos hch]
      have := pathChanges_le_one rest (applyOp st op)
      omega
    · have hp : st.cachedFilePath = "" := by
        by_contra hne
        exact hch (applyOp_path_stable st op hne)
      have hnew : (applyOp st op).cachedFilePath ≠ "" := by
        intro h2
        exact hch (h2.trans hp.symm)
      simp only [pathChanges, if_neg hch]
      rw [pathChanges_zero rest (applyOp st op) hnew]

/-- From a fully populated state, no operation sequence changes the
schema value. -/
lemma schemaChanges_zero :
    ∀ (ops : List SessionOp) (st : OptimizerCache), st.cachedFilePath ≠ "" →
      st.cachedSchema ≠ [] → schemaChanges st ops = 0
  | [], _, _, _ => rfl
  | op :: rest, st, hp, hs => by
    have h1 := applyOp_fixed st op hp hs
    simp only [schemaChanges, h1, if_pos]
    rw [schemaChanges_zero rest st hp hs]

/-- Along any run satisfying the session invariant, the cached schema
value changes at most once. -/
lemma schemaChanges_le_one :
    ∀ (ops : List SessionOp) (st : OptimizerCache),
      (st.cachedFilePath = "" → st.cachedSchema = []) → schemaChanges st ops ≤ 1
  | [], _, _ => by simp [schemaChanges]
  | op :: rest, st, hinv => by
    by_cases hch : (applyOp st op).cachedSchema = st.cachedSchema
    · simp only [schemaChanges, if_pos hch]
      have := schemaChanges_le_one rest (applyOp st op) (applyOp_inv st op hinv)
      omega
    · rcases applyOp_schema_cases st op hinv with hsame | ⟨hs, hp⟩
      · exact absurd hsame hch
      · simp only [schemaChanges, if_neg hch]
        rw [schemaChanges_zero rest (applyOp st op) hp hs]

/-- C9: a fresh session starts with an empty cache (no inheritance from
any earlier session); over any session run, the cached file path and
cached schema values each change at most once (their first successful
population); and once the split point l1 has populated both, the rest
of the run reads the same values without modifying the state at all. -/
theorem c9_cache_written_once (u : String) (ops l1 l2 : List SessionOp)
    (hsplit : ops = l1 ++ l2)
    (hmidPath : (foldOps (AgentOptimizer.init u) l1).cachedFilePath ≠ "")
    (hmidSchema : (foldOps (AgentOptimizer.init u) l1).cachedSchema ≠ []) :
    ((AgentOptimizer.init u).cachedFilePath = "" ∧
      (AgentOptimizer.init u).cachedSchema = []) ∧
    pathChanges (AgentOptimizer.init u) ops ≤ 1 ∧
    schemaChanges (AgentOptimizer.init u) ops ≤ 1 ∧
    foldOps (AgentOptimizer.init u) ops = foldOps (AgentOptimizer.init u) l1 := by
  subst hsplit
  refine ⟨⟨rfl, rfl⟩, pathChanges_le_one _ _,
    schemaChanges_le_one _ _ (fun _ => rfl), ?_⟩
  show List.foldl applyOp (AgentOptimizer.init u) (l1 ++ l2) = _
  rw [List.foldl_append]
  exact foldOps_fixed l2 _ hmidPath hmidSchema

/-- C9 witness: a session that populates both caches and then retries
both lookups; the retries change nothing and each cache was written
once. -/
theorem c9_witness :
    pathChanges (AgentOptimizer.init "default_user")
      ([.opFilePath ["data/a.csv"], .opSchema (fun _ => [⟨"team", "str"⟩])] ++
        [.opFilePath ["data/b.csv"], .opSchema (fun _ => [⟨"x", "i64"⟩])]) ≤ 1 ∧
    foldOps (AgentOptimizer.init "default_user")
      ([.opFilePath ["data/a.csv"], .opSchema (fun _ => [⟨"team", "str"⟩])] ++
        [.opFilePath ["data/b.csv"], .opSchema (fun _ => [⟨"x", "i64"⟩])]) =
      foldOps (AgentOptimizer.init "default_user")
        [.opFilePath ["data/a.csv"], .opSchema (fun _ => [⟨"team", "str"⟩])] :=
  ⟨(c9_cache_written_once "default_user" _
      [.opFilePath ["data/a.csv"], .opSchema (fun _ => [⟨"team", "str"⟩])]
      [.opFilePath ["data/b.csv"], .opSchema (fun _ => [⟨"x", "i64"⟩])]
      rfl (by decide) (by decide)).2.1,
    (c9_cache_written_once "default_user" _
      [.opFilePath ["data/a.csv"], .opSchema (fun _ => [⟨"team", "str"⟩])]
      [.opFilePath ["data/b.csv"], .opSchema (fun _ => [⟨"x", "i64"⟩])]
      rfl (by decide) (by decide)).2.2.2⟩

/-! ## C10: the cached file path is the stripped whole listing -/

/-- dropWhile keeps a list whose head fails the predicate. -/
lemma dropWhile_eq_self_of_head {p : Char → Bool} :
    ∀ l : List Char, (∀ c, l.head? = some c → p c = false) → l.dropWhile p = l
  | [], _ => rfl
  | c :: cs, h => by
    rw [List.dropWhile_cons, h c rfl]
    simp

/-- Stripping does nothing to a character list that neither starts nor
ends with whitespace. -/
lemma stripCharList_eq_self (l : List Char)
    (hhead : ∀ c, l.head? = some c → c.isWhitespace = false)
    (hlast : ∀ c, l.getLast? = some c → c.isWhitespace = false) :
    stripCharList l = l := by
  unfold stripCharList
  rw [dropWhile_eq_self_of_head l hhead]
  rw [dropWhile_eq_self_of_head l.reverse
    (fun c hc => hlast c (by rwa [List.head?_reverse] at hc))]
  exact List.reverse_reverse l

/-- A usable glob result entry: a nonempty path with no whitespace
characters. -/
def goodPath (p : String) : Prop :=
  p.data ≠ [] ∧ ∀ c ∈ p.data, c.isWhitespace = false

/-- The rendered listing of at least two paths splits as the first path,
a newline, and the rendered rest. -/
lemma toolText_cons2 (p q : String) (ps : List String) :
    (toolText (p :: q :: ps)).data = p.data ++ '\n' :: (toolText (q :: ps)).data := by
  show ((p ++ "\n") ++ toolText (q :: ps)).data = _
  have hd : ∀ a b : String, (a ++ b).data = a.data ++ b.data := fun _ _ => rfl
  rw [hd, hd, List.append_assoc]
  rfl

/-- With two or more paths, the rendered listing contains a newline. -/
lemma newline_mem_toolText (p q : String) (ps : List String) :
    '\n' ∈ (toolText (p :: q :: ps)).data := by
  rw [toolText_cons2]
  exact List.mem_append.mpr (Or.inr (List.mem_cons_self _ _))

/-- The rendered listing of good paths is nonempty and neither starts
nor ends with whitespace. -/
lemma toolText_good :
    ∀ ps : List String, ps ≠ [] → (∀ p ∈ ps, goodPath p) →
      (toolText ps).data ≠ [] ∧
      (∀ c, (toolText ps).data.head? = some c → c.isWhitespace = false) ∧
      (∀ c, (toolText ps).data.getLast? = some c → c.isWhitespace = false)
  | [], h, _ => absurd rfl h
  | [p], _, hgood => by
    have hp := hgood p (List.mem_cons_self p [])
    refine ⟨hp.1, ?_, ?_⟩
    · intro c hc
      exact hp.2 c (List.mem_of_mem_head? hc)
    · intro c hc
      exact hp.2 c (List.mem_of_mem_getLast? hc)
  | p :: q :: ps, _, hgood => by
    have hp := hgood p (List.mem_cons_self p (q :: ps))
    have ih := toolText_good (q :: ps) (by simp)
      (fun r hr => hgood r (List.mem_cons_of_mem p hr))
    rw [toolText_cons2]
    refine ⟨by simp [hp.1], ?_, ?_⟩
    · intro c hc
      rw [List.head?_append_of_ne_nil p.data hp.1] at hc
      exact hp.2 c (List.mem_of_mem_head? hc)
    · intro c hc
      rw [List.getLast?_append_of_ne_nil p.data (by simp)] at hc
      have : ('\n' :: (toolText (q :: ps)).data) = ['\n'] ++ (toolText (q :: ps)).data := rfl
      rw [this, List.getLast?_append_of_ne_nil ['\n'] ih.1] at hc
      exact ih.2.2 c hc

/-- C10: the session file-path cache stores the stripped string form of
the entire get_files_list result — in both the csv agent cache and the
dashboard cache — and whenever the listing holds two or more paths, the
cached string differs from every individual listed path. -/
theorem c10_cached_path_is_whole_listing (paths : List String)
    (hlen : 2 ≤ paths.length)
    (hgood : ∀ p ∈ paths, p.data ≠ [] ∧ ∀ c ∈ p.data, c.isWhitespace = false) :
    (cache_file_path (AgentOptimizer.init "default_user") paths).fst.cachedFilePath =
      pyStrip (toolText paths) ∧
    dashboard_cache_file_path none paths =
      (some (pyStrip (toolText paths)), [ToolCall.getFilesList]) ∧
    ∀ p ∈ paths,
      (cache_file_path (AgentOptimizer.init "default_user") paths).fst.cachedFilePath ≠ p := by
  match paths, hlen with
  | p :: q :: ps, _ =>
    refine ⟨rfl, rfl, ?_⟩
    intro r hr heq
    have hgoodAll := toolText_good (p :: q :: ps) (by simp) (fun x hx => hgood x hx)
    have hstrip : pyStrip (toolText (p :: q :: ps)) = toolText (p :: q :: ps) := by
      show (⟨stripCharList (toolText (p :: q :: ps)).data⟩ : String) = _
      rw [stripCharList_eq_self _ hgoodAll.2.1 hgoodAll.2.2]
    have hcached :
        (cache_file_path (AgentOptimizer.init "default_user") (p :: q :: ps)).fst.cachedFilePath =
          pyStrip (toolText (p :: q :: ps)) := rfl
    rw [hcached, hstrip] at heq
    have hmem : '\n' ∈ r.data := by
      rw [← heq]
      exact newline_mem_toolText p q ps
    have hws := (hgood r hr).2 '\n' hmem
    exact absurd hws (by decide)

/-- C10 witness: with two listed files, the cached value is the stripped
two-line listing and matches neither individual path. -/
theorem c10_witness :
    (cache_file_path (AgentOptimizer.init "default_user")
      ["data/a.csv", "data/b.csv"]).fst.cachedFilePath =
      pyStrip (toolText ["data/a.csv", "data/b.csv"]) ∧
    dashboard_cache_file_path none ["data/a.csv", "data/b.csv"] =
      (some (pyStrip (toolText ["data/a.csv", "data/b.csv"])), [ToolCall.getFilesList]) ∧
    ∀ p ∈ ["data/a.csv", "data/b.csv"],
      (cache_file_path (AgentOptimizer.init "default_user")
        ["data/a.csv", "data/b.csv"]).fst.cachedFilePath ≠ p :=
  c10_cached_path_is_whole_listing ["data/a.csv", "data/b.csv"] (by decide) (by decide)

end InsightCraft
